import Mathlib

/-
Verification of the Electra Smart climate integration
(custom_components/electrasmart/climate.py and config_flow.py).

The integration is embedded shallowly: the climate entity's mutable
attributes become an explicit state record, each asynchronous handler
becomes a pure state-transition function whose extra input is the
outcome of the single API call it performs, and raised exceptions become
an explicit `Option RaisedError` component of the result.

The repository's const.py is not part of the sources, so the numeric
constants API_DELAY, CONSECUTIVE_FAILURE_THRESHOLD and
UNAVAILABLE_THRESH_SEC are kept as parameters of the transition
functions; the preset names PRESET_NONE / PRESET_SHABAT are modelled as
an enumeration.  Values owned by the third-party `electra` client
library (OperationMode, STATUS_SUCCESS, Attributes.INTRUDER_LOCKOUT,
the Device model's getters) are modelled from the spec's description of
that library's interface.
-/

/-- Vendor operation-mode enumeration of the third-party device library.
One Python enum carries both the HVAC modes and the fan-speed values,
which is why the translation dictionaries are partial. -/
inductive OperationMode
  | MODE_COOL
  | MODE_HEAT
  | MODE_FAN
  | MODE_DRY
  | MODE_AUTO
  | FAN_SPEED_AUTO
  | FAN_SPEED_LOW
  | FAN_SPEED_MED
  | FAN_SPEED_HIGH
deriving DecidableEq, Fintype

/-- Host fan modes (FAN_AUTO, FAN_LOW, FAN_MEDIUM, FAN_HIGH). -/
inductive FanMode
  | FAN_AUTO
  | FAN_LOW
  | FAN_MEDIUM
  | FAN_HIGH
deriving DecidableEq, Fintype

/-- Host HVAC modes used by the entity. -/
inductive HVACMode
  | OFF
  | HEAT
  | COOL
  | DRY
  | FAN_ONLY
  | AUTO
deriving DecidableEq, Fintype

/-- Host HVAC actions used by the entity. -/
inductive HVACAction
  | OFF
  | COOLING
  | HEATING
  | DRYING
  | FAN
deriving DecidableEq, Fintype

/-- Host swing modes (SWING_OFF, SWING_BOTH, SWING_HORIZONTAL, SWING_VERTICAL). -/
inductive SwingMode
  | OFF
  | BOTH
  | HORIZONTAL
  | VERTICAL
deriving DecidableEq, Fintype

/-- Preset modes of the entity (PRESET_NONE / PRESET_SHABAT from const.py). -/
inductive PresetMode
  | NONE
  | SHABAT
deriving DecidableEq, Fintype

/-- Dictionary FAN_ELECTRA_TO_HASS (climate.py lines 49-54); a missing
key is a Python KeyError, hence the Option result. -/
def FAN_ELECTRA_TO_HASS : OperationMode → Option FanMode
  | .FAN_SPEED_AUTO => some .FAN_AUTO
  | .FAN_SPEED_LOW => some .FAN_LOW
  | .FAN_SPEED_MED => some .FAN_MEDIUM
  | .FAN_SPEED_HIGH => some .FAN_HIGH
  | _ => none

/-- Dictionary FAN_HASS_TO_ELECTRA (climate.py lines 56-61); total on
the four host fan modes. -/
def FAN_HASS_TO_ELECTRA : FanMode → OperationMode
  | .FAN_AUTO => .FAN_SPEED_AUTO
  | .FAN_LOW => .FAN_SPEED_LOW
  | .FAN_MEDIUM => .FAN_SPEED_MED
  | .FAN_HIGH => .FAN_SPEED_HIGH

/-- Dictionary HVAC_MODE_ELECTRA_TO_HASS (climate.py lines 63-69). -/
def HVAC_MODE_ELECTRA_TO_HASS : OperationMode → Option HVACMode
  | .MODE_COOL => some .COOL
  | .MODE_HEAT => some .HEAT
  | .MODE_FAN => some .FAN_ONLY
  | .MODE_DRY => some .DRY
  | .MODE_AUTO => some .AUTO
  | _ => none

/-- Dictionary HVAC_MODE_HASS_TO_ELECTRA (climate.py lines 71-77);
HVACMode.OFF is not a key of the Python dictionary. -/
def HVAC_MODE_HASS_TO_ELECTRA : HVACMode → Option OperationMode
  | .COOL => some .MODE_COOL
  | .HEAT => some .MODE_HEAT
  | .FAN_ONLY => some .MODE_FAN
  | .DRY => some .MODE_DRY
  | .AUTO => some .MODE_AUTO
  | .OFF => none

/-- Dictionary HVAC_ACTION_ELECTRA_TO_HASS (climate.py lines 79-84). -/
def HVAC_ACTION_ELECTRA_TO_HASS : OperationMode → Option HVACAction
  | .MODE_COOL => some .COOLING
  | .MODE_HEAT => some .HEATING
  | .MODE_FAN => some .FAN
  | .MODE_DRY => some .DRYING
  | _ => none

/-- Modelled from the spec: the vendor Device model of the third-party
client library (spec sections 3 and 6): identity, mutable operating
state, and a seconds-since-last-contact age used to derive
connectivity.  Getter methods of the Python object are field reads. -/
structure ElectraAirConditioner where
  name : String
  mac : String
  isOn : Bool
  mode : OperationMode
  fanSpeed : OperationMode
  temperature : Int
  sensorTemperature : Int
  horizontalSwing : Bool
  verticalSwing : Bool
  shabatMode : Bool
  secondsSinceLastContact : Nat
deriving DecidableEq

/-- Modelled from the spec: `is_disconnected(threshold)` of the device
library — connectivity is derived from a host-supplied
seconds-since-last-contact threshold. -/
def is_disconnected (d : ElectraAirConditioner) (thresh : Nat) : Bool :=
  thresh < d.secondsSinceLastContact

/-- Exceptions the integration can raise (Home Assistant exception
types, plus the Python KeyError a missing dictionary key raises). -/
inductive RaisedError
  | homeAssistantError (msg : String)
  | configEntryAuthFailed (msg : String)
  | configEntryNotReady (msg : String)
  | keyError
deriving DecidableEq

/-- Mutable attribute state of one ElectraClimate entity: the fields
written by async_update, _update_device_attrs and
_async_update_electra_ac_state. -/
structure ClimateState where
  lastStateUpdate : Nat
  consecutiveFailures : Nat
  skipUpdate : Bool
  available : Bool
  attrAvailable : Bool
  attrFanMode : Option FanMode
  attrCurrentTemperature : Option Int
  attrTargetTemperature : Option Int
  attrHvacMode : Option HVACMode
  attrHvacAction : Option HVACAction
  attrSwingMode : Option SwingMode
  attrPresetMode : Option PresetMode
  device : ElectraAirConditioner
deriving DecidableEq

/-- Projection of the cached display attributes (everything
_update_device_attrs writes), used to state frame conditions. -/
structure DisplayAttrs where
  fanMode : Option FanMode
  currentTemperature : Option Int
  targetTemperature : Option Int
  hvacMode : Option HVACMode
  hvacAction : Option HVACAction
  swingMode : Option SwingMode
  presetMode : Option PresetMode
deriving DecidableEq

/-- The display attributes cached in a ClimateState. -/
def displayAttrs (s : ClimateState) : DisplayAttrs :=
  { fanMode := s.attrFanMode
    currentTemperature := s.attrCurrentTemperature
    targetTemperature := s.attrTargetTemperature
    hvacMode := s.attrHvacMode
    hvacAction := s.attrHvacAction
    swingMode := s.attrSwingMode
    presetMode := s.attrPresetMode }

/-- The hvac-mode computation of _update_device_attrs (climate.py lines
282-286): OFF when the device is off, otherwise a dictionary lookup
that can raise KeyError. -/
def hvacModeResult (d : ElectraAirConditioner) : Option HVACMode :=
  if d.isOn then HVAC_MODE_ELECTRA_TO_HASS d.mode else some .OFF

/-- The hvac-action computation of _update_device_attrs (climate.py
lines 288-295): None in AUTO mode, OFF when the device is off,
otherwise a dictionary lookup that can raise KeyError.  The outer
Option is the possible KeyError, the inner one the Python None. -/
def hvacActionResult (d : ElectraAirConditioner) : Option (Option HVACAction) :=
  if d.mode = .MODE_AUTO then some none
  else if d.isOn then (HVAC_ACTION_ELECTRA_TO_HASS d.mode).map some
  else some (some .OFF)

/-- The swing-mode composition of _update_device_attrs (climate.py
lines 297-307). -/
def deriveSwingMode (d : ElectraAirConditioner) : SwingMode :=
  if d.horizontalSwing && d.verticalSwing then .BOTH
  else if d.horizontalSwing then .HORIZONTAL
  else if d.verticalSwing then .VERTICAL
  else .OFF

/-- The preset derivation of _update_device_attrs (climate.py lines
309-313). -/
def derivePreset (d : ElectraAirConditioner) : PresetMode :=
  if d.shabatMode then .SHABAT else .NONE

/-- _update_device_attrs (climate.py lines 272-313).  The attributes
are written in source order, so a KeyError leaves the attributes
assigned before it updated and the rest untouched. -/
def updateDeviceAttrs (s : ClimateState) : ClimateState × Option RaisedError :=
  match FAN_ELECTRA_TO_HASS s.device.fanSpeed with
  | none => (s, some .keyError)
  | some fm =>
    let s1 := { s with
      attrFanMode := some fm
      attrCurrentTemperature := some s.device.sensorTemperature
      attrTargetTemperature := some s.device.temperature }
    match hvacModeResult s.device with
    | none => (s1, some .keyError)
    | some hm =>
      let s2 := { s1 with attrHvacMode := some hm }
      match hvacActionResult s.device with
      | none => (s2, some .keyError)
      | some act =>
        ({ s2 with
            attrHvacAction := act
            attrSwingMode := some (deriveSwingMode s.device)
            attrPresetMode := some (derivePreset s.device) }, none)

/-- Outcome of the telemetry fetch `get_last_telemtry` performed during
a poll: on success the API client mutates the device model in place,
modelled as the replacement device value; on failure it raises
ElectraApiError with the given message. -/
inductive FetchResult
  | success (d : ElectraAirConditioner)
  | failure (msg : String)
deriving DecidableEq

/-- Result of one async_update call: the new entity state, whether
get_last_telemtry was actually called, and the exception propagated to
the host, if any. -/
structure UpdateOutcome where
  state : ClimateState
  fetched : Bool
  raised : Option RaisedError
deriving DecidableEq

/-- The warning message of the failure branch of async_update
(climate.py lines 242-245). -/
def pollFailMessage (s : ClimateState) (msg : String) : String :=
  "Failed to get " ++ s.device.name ++ " state: " ++ msg ++ " for the " ++
    toString s.consecutiveFailures ++ " time"

/-- The except-branch of async_update (climate.py lines 233-245):
increment the consecutive-failure counter, keep every other field, and
raise HomeAssistantError once the counter reaches the threshold. -/
def pollFailure (threshold : Nat) (s : ClimateState) (msg : String) : UpdateOutcome :=
  let s1 := { s with consecutiveFailures := s.consecutiveFailures + 1 }
  if threshold ≤ s1.consecutiveFailures then
    ⟨s1, true, some (.homeAssistantError (pollFailMessage s1 msg))⟩
  else
    ⟨s1, true, none⟩

/-- The body of async_update after a fetch that did not raise
(climate.py lines 206-231 and the try-else at 246-248): handle the
disconnected early return and the availability transition, then reset
the failure counter and reconcile the display attributes. -/
def pollAfterFetch (unavailThresh : Nat) (s : ClimateState) (fetched : Bool) :
    UpdateOutcome :=
  if is_disconnected s.device unavailThresh then
    ⟨{ s with available := false, attrAvailable := false }, fetched, none⟩
  else
    let s1 := if s.available then s else { s with available := true, attrAvailable := true }
    let s2 := { s1 with consecutiveFailures := 0 }
    let p := updateDeviceAttrs s2
    ⟨p.1, fetched, p.2⟩

/-- async_update (climate.py lines 186-248) as a transition on the
entity state.  `now` is int(time.time()); `fetch` is the outcome
get_last_telemtry would produce, ignored when the call is skipped. -/
def asyncUpdate (threshold apiDelay unavailThresh : Nat) (s : ClimateState)
    (now : Nat) (fetch : FetchResult) : UpdateOutcome :=
  if s.lastStateUpdate ≠ 0 ∧ now < s.lastStateUpdate + apiDelay then
    ⟨s, false, none⟩
  else if s.skipUpdate then
    pollAfterFetch unavailThresh { s with lastStateUpdate := 0, skipUpdate := false } false
  else
    match fetch with
    | .success d =>
        pollAfterFetch unavailThresh { s with lastStateUpdate := 0, device := d } true
    | .failure msg =>
        pollFailure threshold { s with lastStateUpdate := 0 } msg

/-- Substring membership of one character list in another, the meaning
of Python's `needle in haystack` on strings. -/
def hasSub (needle : List Char) : List Char → Bool
  | [] => needle.isEmpty
  | c :: rest => needle.isPrefixOf (c :: rest) || hasSub needle rest

/-- Python's `needle in haystack` for strings. -/
def containsSub (haystack needle : String) : Bool :=
  hasSub needle.toList haystack.toList

/-- Modelled from the spec: STATUS_SUCCESS of the third-party client
library, the success code of its acknowledgment payloads. -/
def STATUS_SUCCESS : Nat := 0

/-- Modelled from the spec: Attributes.INTRUDER_LOCKOUT of the
third-party client library, the lockout marker searched for in error
messages.  Only its use as a search substring matters here. -/
def INTRUDER_LOCKOUT : String := "IntruderLockout"

/-- The literal "client error" searched for in error messages. -/
def clientErrorMarker : String := "client error"

/-- The prefix every API error message is wrapped with. -/
def apiCommError : String := "Error communicating with API: "

/-- Outcome of the `set_state` API call made by
_async_update_electra_ac_state: an ElectraApiError with message `msg`,
or an acknowledgment payload with outer status resp[Attributes.STATUS]
and inner result resp[Attributes.DATA][Attributes.RES]. -/
inductive SetStateResult
  | apiError (msg : String)
  | resp (status : Nat) (dataRes : Nat)
deriving DecidableEq

/-- Result of one _async_update_electra_ac_state call: the new entity
state, whether _async_write_ha_state was called, and the exception
propagated to the host, if any. -/
structure CommandOutcome where
  state : ClimateState
  wroteHaState : Bool
  raised : Option RaisedError
deriving DecidableEq

/-- The error message of the unsuccessful-acknowledgment branch of
_async_update_electra_ac_state (climate.py lines 359-361). -/
def updateFailMessage (s : ClimateState) (status dataRes : Nat) : String :=
  "Failed to update " ++ s.device.name ++ ", error: " ++ toString status ++
    " " ++ toString dataRes

/-- _async_update_electra_ac_state (climate.py lines 334-365), given
the outcome of the set_state call and the current time. -/
def updateElectraAcState (s : ClimateState) (now : Nat) :
    SetStateResult → CommandOutcome
  | .apiError msg =>
    let errMessage := apiCommError ++ msg
    if containsSub errMessage clientErrorMarker then
      ⟨s, false, some (.homeAssistantError
        (errMessage ++ ", Check your internet connection."))⟩
    else if containsSub errMessage INTRUDER_LOCKOUT then
      ⟨s, false, some (.configEntryAuthFailed
        (errMessage ++ ", You must re-authenticate by adding the integration again"))⟩
    else
      ⟨s, true, none⟩
  | .resp status dataRes =>
    if ¬(status = STATUS_SUCCESS ∧ dataRes = STATUS_SUCCESS) then
      ⟨s, true, some (.homeAssistantError (updateFailMessage s status dataRes))⟩
    else
      let p := updateDeviceAttrs s
      match p.2 with
      | some e => ⟨p.1, false, some e⟩
      | none => ⟨{ p.1 with lastStateUpdate := now }, true, none⟩

/-- Outcome of the `get_devices` API call. -/
inductive GetDevicesApiResult
  | success (devices : List ElectraAirConditioner)
  | apiError (msg : String)
deriving DecidableEq

/-- Result of the module-level get_devices helper. -/
inductive GetDevicesOutcome
  | ok (devices : List ElectraAirConditioner)
  | raised (e : RaisedError)
deriving DecidableEq

/-- get_devices (climate.py lines 104-119). -/
def getDevices : GetDevicesApiResult → GetDevicesOutcome
  | .success ds => .ok ds
  | .apiError msg =>
    let errMessage := apiCommError ++ msg
    if containsSub errMessage clientErrorMarker then
      .raised (.configEntryNotReady
        (errMessage ++ ", Check your internet connection."))
    else if containsSub errMessage INTRUDER_LOCKOUT then
      .raised (.configEntryAuthFailed
        (errMessage ++ ", You must re-authenticate by adding the integration again"))
    else
      .raised (.configEntryNotReady errMessage)

/-- Validation errors the config-flow forms can redisplay with. -/
inductive FlowError
  | cannotConnect
  | invalidPhoneNumber
  | invalidAuth
deriving DecidableEq

/-- Outcome of the generate_new_token API call during phone-number
validation. -/
inductive PhoneApiResult
  | apiError (msg : String)
  | resp (status : Nat) (dataRes : Nat)
deriving DecidableEq

/-- Result of _validate_phone_number: redisplay the user form with an
error, or advance to the one-time-password step. -/
inductive PhoneOutcome
  | showFormUser (err : FlowError)
  | advanceToOtp
deriving DecidableEq

/-- _validate_phone_number (config_flow.py lines 79-102), given the
outcome of generate_new_token. -/
def validatePhoneNumber : PhoneApiResult → PhoneOutcome
  | .apiError _ => .showFormUser .cannotConnect
  | .resp status dataRes =>
    if status = STATUS_SUCCESS then
      if dataRes ≠ STATUS_SUCCESS then .showFormUser .invalidPhoneNumber
      else .advanceToOtp
    else .advanceToOtp

/-- Outcome of the validate_one_time_password API call: an
ElectraApiError, or a payload with inner result
resp[ATTR_DATA][ATTR_RES] and token resp[ATTR_DATA][ATTR_TOKEN]. -/
inductive OtpApiResult
  | apiError (msg : String)
  | resp (dataRes : Nat) (token : String)
deriving DecidableEq

/-- A persisted configuration entry created by the flow. -/
structure ConfigEntryData where
  title : String
  token : String
  imei : String
  phoneNumber : String
deriving DecidableEq

/-- Result of _validate_one_time_password: redisplay the OTP form with
an error, or create the configuration entry. -/
inductive OtpOutcome
  | showOtpForm (err : FlowError)
  | createEntry (e : ConfigEntryData)
deriving DecidableEq

/-- _validate_one_time_password (config_flow.py lines 104-126), given
the stored phone number and generated IMEI and the outcome of
validate_one_time_password. -/
def validateOneTimePassword (phone imei : String) : OtpApiResult → OtpOutcome
  | .apiError _ => .showOtpForm .cannotConnect
  | .resp dataRes token =>
    if dataRes = STATUS_SUCCESS then
      .createEntry { title := phone, token := token, imei := imei, phoneNumber := phone }
    else
      .showOtpForm .invalidAuth

/-- True exactly when the raised exception is a HomeAssistantError. -/
def isHomeAssistantError : Option RaisedError → Bool
  | some (.homeAssistantError _) => true
  | _ => false

/-- True exactly when the raised exception is ConfigEntryAuthFailed. -/
def isAuthFailed : Option RaisedError → Bool
  | some (.configEntryAuthFailed _) => true
  | _ => false

/-- True exactly when a get_devices outcome is ConfigEntryAuthFailed. -/
def getDevicesAuthFailed : GetDevicesOutcome → Bool
  | .raised (.configEntryAuthFailed _) => true
  | _ => false

/-- A concrete connected device used to instantiate theorems. -/
def wDevice : ElectraAirConditioner :=
  { name := "LivingRoom"
    mac := "aa:bb"
    isOn := true
    mode := .MODE_COOL
    fanSpeed := .FAN_SPEED_LOW
    temperature := 24
    sensorTemperature := 22
    horizontalSwing := true
    verticalSwing := true
    shabatMode := false
    secondsSinceLastContact := 10 }

/-- A concrete disconnected device (stale last contact). -/
def wDeviceStale : ElectraAirConditioner :=
  { wDevice with secondsSinceLastContact := 1000 }

/-- A concrete entity state with two consecutive failures recorded. -/
def wState : ClimateState :=
  { lastStateUpdate := 0
    consecutiveFailures := 2
    skipUpdate := false
    available := true
    attrAvailable := true
    attrFanMode := none
    attrCurrentTemperature := none
    attrTargetTemperature := none
    attrHvacMode := none
    attrHvacAction := none
    attrSwingMode := none
    attrPresetMode := none
    device := wDevice }

/-- A concrete entity state with five consecutive failures recorded. -/
def wState5 : ClimateState :=
  { wState with consecutiveFailures := 5 }

/-- A concrete entity state inside the propagation-delay window. -/
def wStateRecent : ClimateState :=
  { wState with lastStateUpdate := 50 }

/-- A concrete transport-error message. -/
def wMsg : String := "timeout"

/-- A concrete API error message containing both the client-error text
and the lockout marker. -/
def lockoutClientErrorMsg : String := "client error IntruderLockout"

/-- A concrete API error message containing the lockout marker but not
the client-error text. -/
def lockoutOnlyMsg : String := "auth IntruderLockout"

/-- C5: the fan-mode and HVAC-mode translation tables are bijective
round-trips over their supported values: a vendor value maps to a host
value exactly when that host value maps back to it, in both tables. -/
theorem fan_and_hvac_tables_bijective :
    (∀ (m : OperationMode) (f : FanMode),
        FAN_ELECTRA_TO_HASS m = some f ↔ FAN_HASS_TO_ELECTRA f = m) ∧
    (∀ (m : OperationMode) (h : HVACMode),
        HVAC_MODE_ELECTRA_TO_HASS m = some h ↔ HVAC_MODE_HASS_TO_ELECTRA h = some m) := by
  decide

/-- C8: when OTP validation returns a success result, the flow creates
a configuration entry containing exactly the token from the response,
the generated IMEI and the phone number, titled with the phone
number. -/
theorem otp_success_creates_entry (p i tok : String) :
    validateOneTimePassword p i (.resp STATUS_SUCCESS tok) =
      .createEntry { title := p, token := tok, imei := i, phoneNumber := p } := by
  simp [validateOneTimePassword]

/-- C6 counterexample: a generate_new_token acknowledgment whose outer
status and inner result are both non-success is a negative
acknowledgment, yet phone-number validation advances to the OTP step
instead of redisplaying the form with invalid_phone_number. -/
theorem phone_nack_advances :
    validatePhoneNumber (.resp 1 1) = .advanceToOtp ∧
    (1 : Nat) ≠ STATUS_SUCCESS := by
  decide

/-- C6 (amended): phone-number validation redisplays the user form with
invalid_phone_number exactly when the outer status is success and the
inner result is not (a non-success outer status advances to the OTP
step instead); OTP validation redisplays the OTP form with invalid_auth
exactly when the inner result is non-success. -/
theorem nack_redisplays_same_form :
    (∀ status dataRes : Nat,
        validatePhoneNumber (.resp status dataRes) = .showFormUser .invalidPhoneNumber
          ↔ (status = STATUS_SUCCESS ∧ dataRes ≠ STATUS_SUCCESS)) ∧
    (∀ (p i tok : String) (dataRes : Nat),
        validateOneTimePassword p i (.resp dataRes tok) = .showOtpForm .invalidAuth
          ↔ dataRes ≠ STATUS_SUCCESS) := by
  constructor
  · intro status dataRes
    by_cases h1 : status = STATUS_SUCCESS
    · by_cases h2 : dataRes = STATUS_SUCCESS <;>
        simp [validatePhoneNumber, h1, h2]
    · simp [validatePhoneNumber, h1]
  · intro p i tok dataRes
    by_cases h : dataRes = STATUS_SUCCESS <;>
      simp [validateOneTimePassword, h]

/-- C7: a set_state acknowledgment that is not a full success makes the
command handler write the current (stale) state to the host and raise a
generic HomeAssistantError, leaving the entity state — display
attributes and skip-window timestamp included — unchanged. -/
theorem set_state_nack_writes_then_raises (s : ClimateState)
    (now status dataRes : Nat)
    (h : ¬(status = STATUS_SUCCESS ∧ dataRes = STATUS_SUCCESS)) :
    updateElectraAcState s now (.resp status dataRes) =
      ⟨s, true, some (.homeAssistantError (updateFailMessage s status dataRes))⟩ := by
  simp only [updateElectraAcState]
  rw [if_pos h]

/-- Witness for C7 at a concrete state and payload. -/
theorem set_state_nack_witness :
    updateElectraAcState wState 77 (.resp 0 1) =
      ⟨wState, true, some (.homeAssistantError (updateFailMessage wState 0 1))⟩ := by
  exact set_state_nack_writes_then_raises wState 77 0 1 (by decide)

/-- C2 counterexample: an API error whose message contains the lockout
marker together with the client-error text is classified by the
client-error branch first, so neither set_state handling nor
get_devices produces ConfigEntryAuthFailed for it. -/
theorem lockout_with_client_error_no_reauth :
    containsSub (apiCommError ++ lockoutClientErrorMsg) INTRUDER_LOCKOUT = true ∧
    isAuthFailed (updateElectraAcState wState 77
        (.apiError lockoutClientErrorMsg)).raised = false ∧
    getDevicesAuthFailed (getDevices (.apiError lockoutClientErrorMsg)) = false := by
  decide

/-- C2 (amended): an API error message containing the lockout marker
results in ConfigEntryAuthFailed — from set_state handling and from
get_devices — provided the message does not also contain the
client-error text, which is checked first. -/
theorem lockout_requires_reauth (s : ClimateState) (now : Nat) (msg : String)
    (hlock : containsSub (apiCommError ++ msg) INTRUDER_LOCKOUT = true)
    (hnoclient : containsSub (apiCommError ++ msg) clientErrorMarker = false) :
    (updateElectraAcState s now (.apiError msg)).raised =
      some (.configEntryAuthFailed
        ((apiCommError ++ msg) ++ ", You must re-authenticate by adding the integration again")) ∧
    getDevices (.apiError msg) =
      .raised (.configEntryAuthFailed
        ((apiCommError ++ msg) ++ ", You must re-authenticate by adding the integration again")) := by
  constructor
  · simp [updateElectraAcState, hnoclient, hlock]
  · simp [getDevices, hnoclient, hlock]

/-- Witness for C2 (amended) at a concrete lockout-only message. -/
theorem lockout_requires_reauth_witness :
    (updateElectraAcState wState 77 (.apiError lockoutOnlyMsg)).raised =
      some (.configEntryAuthFailed
        ((apiCommError ++ lockoutOnlyMsg) ++ ", You must re-authenticate by adding the integration again")) ∧
    getDevices (.apiError lockoutOnlyMsg) =
      .raised (.configEntryAuthFailed
        ((apiCommError ++ lockoutOnlyMsg) ++ ", You must re-authenticate by adding the integration again")) := by
  exact lockout_requires_reauth wState 77 lockoutOnlyMsg (by decide) (by decide)

/-- C3: a poll that arrives while a recorded command timestamp is
non-zero and less than API_DELAY seconds old is skipped entirely: the
state — every display attribute, availability and the failure counter —
is returned unchanged, nothing is fetched and nothing is raised. -/
theorem skip_window_poll_unchanged (threshold apiDelay unavailThresh : Nat)
    (s : ClimateState) (now : Nat) (fetch : FetchResult)
    (h1 : s.lastStateUpdate ≠ 0) (h2 : now < s.lastStateUpdate + apiDelay) :
    asyncUpdate threshold apiDelay unavailThresh s now fetch = ⟨s, false, none⟩ := by
  unfold asyncUpdate
  rw [if_pos ⟨h1, h2⟩]

/-- Witness for C3 at a concrete in-window state. -/
theorem skip_window_poll_unchanged_witness :
    asyncUpdate 4 100 300 wStateRecent 60 (.failure wMsg) =
      ⟨wStateRecent, false, none⟩ := by
  exact skip_window_poll_unchanged 4 100 300 wStateRecent 60 (.failure wMsg)
    (by decide) (by decide)

/-- When all three dictionary lookups succeed, _update_device_attrs
rewrites exactly the display attributes from the device via the
translation tables and raises nothing. -/
theorem updateDeviceAttrs_eq (s : ClimateState) (fm : FanMode) (hm : HVACMode)
    (act : Option HVACAction)
    (hfan : FAN_ELECTRA_TO_HASS s.device.fanSpeed = some fm)
    (hmode : hvacModeResult s.device = some hm)
    (hact : hvacActionResult s.device = some act) :
    updateDeviceAttrs s =
      ({ s with
          attrFanMode := some fm
          attrCurrentTemperature := some s.device.sensorTemperature
          attrTargetTemperature := some s.device.temperature
          attrHvacMode := some hm
          attrHvacAction := act
          attrSwingMode := some (deriveSwingMode s.device)
          attrPresetMode := some (derivePreset s.device) }, none) := by
  unfold updateDeviceAttrs
  rw [hfan, hmode, hact]

/-- For a connected device whose dictionary lookups succeed, the
post-fetch body of async_update resets the failure counter, raises
nothing, and recopies the display attributes from the device. -/
theorem pollAfterFetch_connected (unavailThresh : Nat) (s : ClimateState)
    (fetched : Bool) (fm : FanMode) (hm : HVACMode) (act : Option HVACAction)
    (hconn : is_disconnected s.device unavailThresh = false)
    (hfan : FAN_ELECTRA_TO_HASS s.device.fanSpeed = some fm)
    (hmode : hvacModeResult s.device = some hm)
    (hact : hvacActionResult s.device = some act) :
    (pollAfterFetch unavailThresh s fetched).state.consecutiveFailures = 0 ∧
    (pollAfterFetch unavailThresh s fetched).raised = none ∧
    (pollAfterFetch unavailThresh s fetched).fetched = fetched ∧
    displayAttrs (pollAfterFetch unavailThresh s fetched).state =
      { fanMode := some fm
        currentTemperature := some s.device.sensorTemperature
        targetTemperature := some s.device.temperature
        hvacMode := some hm
        hvacAction := act
        swingMode := some (deriveSwingMode s.device)
        presetMode := some (derivePreset s.device) } := by
  have hup1 := updateDeviceAttrs_eq
    { s with consecutiveFailures := 0 } fm hm act hfan hmode hact
  have hup2 := updateDeviceAttrs_eq
    { s with
      available := true
      attrAvailable := true
      consecutiveFailures := 0 }
    fm hm act hfan hmode hact
  unfold pollAfterFetch
  rw [hconn]
  simp only [Bool.false_eq_true, if_false]
  by_cases hav : s.available = true
  · rw [if_pos hav, hup1]
    simp [displayAttrs]
  · rw [if_neg hav, hup2]
    simp [displayAttrs]

/-- C1 counterexample: with threshold 3 and two consecutive failures
already recorded — a count at or below the threshold — the next failing
poll already raises a HomeAssistantError, not only after three recorded
failures. -/
theorem failing_poll_below_threshold_raises :
    isHomeAssistantError (asyncUpdate 3 5 300 wState 100 (.failure wMsg)).raised = true ∧
    wState.consecutiveFailures ≤ 3 := by
  decide

/-- C1 (amended): past the skip window, a failing poll raises a
HomeAssistantError exactly when the count it produces (previous count
plus one) reaches CONSECUTIVE_FAILURE_THRESHOLD; so after threshold
minus one consecutive failures the next failing poll raises, and a
failing poll with fewer prior failures is swallowed. -/
theorem failing_poll_raises_iff (threshold apiDelay unavailThresh : Nat)
    (s : ClimateState) (now : Nat) (msg : String)
    (hwin : ¬(s.lastStateUpdate ≠ 0 ∧ now < s.lastStateUpdate + apiDelay))
    (hskip : s.skipUpdate = false) :
    isHomeAssistantError
        (asyncUpdate threshold apiDelay unavailThresh s now (.failure msg)).raised = true
      ↔ threshold ≤ s.consecutiveFailures + 1 := by
  unfold asyncUpdate
  rw [if_neg hwin]
  by_cases h : threshold ≤ s.consecutiveFailures + 1 <;>
    simp [hskip, pollFailure, isHomeAssistantError, h]

/-- Witness for C1 (amended): with threshold 3 and two prior failures
the next failing poll raises. -/
theorem failing_poll_raises_iff_witness :
    isHomeAssistantError (asyncUpdate 3 7 300 wState 200 (.failure wMsg)).raised = true := by
  exact (failing_poll_raises_iff 3 7 300 wState 200 wMsg (by decide) rfl).mpr (by decide)

/-- C4 counterexample: a poll whose fetch succeeds but whose device
reports disconnected raises nothing yet leaves the failure counter at
five instead of resetting it to zero. -/
theorem success_poll_disconnected_no_reset :
    (asyncUpdate 4 5 300 wState5 100 (.success wDeviceStale)).raised = none ∧
    (asyncUpdate 4 5 300 wState5 100 (.success wDeviceStale)).state.consecutiveFailures = 5 ∧
    (5 : Nat) ≠ 0 := by
  decide

/-- C4 (amended): past the skip window, a failing fetch increments the
consecutive-failure counter by exactly one and leaves every cached
display attribute unchanged; a successful fetch of a connected device
resets the counter to zero and recopies the display attributes from the
vendor device state through the translation tables. -/
theorem poll_fetch_effects (threshold apiDelay unavailThresh : Nat)
    (s : ClimateState) (now : Nat)
    (hwin : ¬(s.lastStateUpdate ≠ 0 ∧ now < s.lastStateUpdate + apiDelay))
    (hskip : s.skipUpdate = false) :
    (∀ msg : String,
      (asyncUpdate threshold apiDelay unavailThresh s now (.failure msg)).state.consecutiveFailures
          = s.consecutiveFailures + 1 ∧
      displayAttrs (asyncUpdate threshold apiDelay unavailThresh s now (.failure msg)).state
          = displayAttrs s) ∧
    (∀ (d : ElectraAirConditioner) (fm : FanMode) (hm : HVACMode) (act : Option HVACAction),
      is_disconnected d unavailThresh = false →
      FAN_ELECTRA_TO_HASS d.fanSpeed = some fm →
      hvacModeResult d = some hm →
      hvacActionResult d = some act →
      (asyncUpdate threshold apiDelay unavailThresh s now (.success d)).state.consecutiveFailures
          = 0 ∧
      displayAttrs (asyncUpdate threshold apiDelay unavailThresh s now (.success d)).state
          = { fanMode := some fm
              currentTemperature := some d.sensorTemperature
              targetTemperature := some d.temperature
              hvacMode := some hm
              hvacAction := act
              swingMode := some (deriveSwingMode d)
              presetMode := some (derivePreset d) }) := by
  constructor
  · intro msg
    unfold asyncUpdate
    rw [if_neg hwin]
    by_cases h : threshold ≤ s.consecutiveFailures + 1 <;>
      simp [hskip, pollFailure, h, displayAttrs]
  · intro d fm hm act hconn hfan hmode hact
    unfold asyncUpdate
    rw [if_neg hwin, hskip]
    simp only [Bool.false_eq_true, if_false]
    have hp := pollAfterFetch_connected unavailThresh
      { s with
        lastStateUpdate := 0
        skipUpdate := false
        device := d }
      true fm hm act hconn hfan hmode hact
    exact ⟨hp.1, hp.2.2.2⟩

/-- Witness for C4 (amended) at a concrete state, message and device. -/
theorem poll_fetch_effects_witness :
    (asyncUpdate 4 5 300 wState 100 (.failure wMsg)).state.consecutiveFailures
        = wState.consecutiveFailures + 1 ∧
    (asyncUpdate 4 5 300 wState 100 (.success wDevice)).state.consecutiveFailures = 0 := by
  have h := poll_fetch_effects 4 5 300 wState 100 (by decide) rfl
  exact ⟨(h.1 wMsg).1,
    (h.2 wDevice .FAN_LOW .COOL (some .COOLING) (by decide) rfl rfl rfl).1⟩

/-- C9: after a successful attribute reconciliation the derived swing
mode composes the two device swing axes: both reported true gives BOTH,
both false gives OFF, and exactly one true gives that single axis. -/
theorem swing_mode_composition (s : ClimateState)
    (h : (updateDeviceAttrs s).2 = none) :
    (s.device.horizontalSwing = true → s.device.verticalSwing = true →
        (updateDeviceAttrs s).1.attrSwingMode = some SwingMode.BOTH) ∧
    (s.device.horizontalSwing = false → s.device.verticalSwing = false →
        (updateDeviceAttrs s).1.attrSwingMode = some SwingMode.OFF) ∧
    (s.device.horizontalSwing = true → s.device.verticalSwing = false →
        (updateDeviceAttrs s).1.attrSwingMode = some SwingMode.HORIZONTAL) ∧
    (s.device.horizontalSwing = false → s.device.verticalSwing = true →
        (updateDeviceAttrs s).1.attrSwingMode = some SwingMode.VERTICAL) := by
  have hsw : (updateDeviceAttrs s).1.attrSwingMode = some (deriveSwingMode s.device) := by
    have h2 := h
    unfold updateDeviceAttrs at h2
    split at h2
    next => simp at h2
    next fm hfan =>
      split at h2
      next => simp at h2
      next hm hmode =>
        split at h2
        next => simp at h2
        next act hact =>
          rw [updateDeviceAttrs_eq s fm hm act hfan hmode hact]
  refine ⟨fun hh hv => ?_, fun hh hv => ?_, fun hh hv => ?_, fun hh hv => ?_⟩ <;>
    rw [hsw] <;> simp [deriveSwingMode, hh, hv]

/-- Witness for C9 at a concrete state whose device reports both swing
axes active. -/
theorem swing_mode_composition_witness :
    (updateDeviceAttrs wState).2 = none ∧
    (updateDeviceAttrs wState).1.attrSwingMode = some SwingMode.BOTH := by
  have h : (updateDeviceAttrs wState).2 = none := by decide
  exact ⟨h, (swing_mode_composition wState h).1 rfl rfl⟩

/-- C10: a poll whose fetch succeeds on a device reporting disconnected
returns early: nothing is raised, the entity is marked unavailable, and
the failure counter and every other display attribute are unchanged. -/
theorem disconnected_poll_early_return (threshold apiDelay unavailThresh : Nat)
    (s : ClimateState) (now : Nat) (d : ElectraAirConditioner)
    (hwin : ¬(s.lastStateUpdate ≠ 0 ∧ now < s.lastStateUpdate + apiDelay))
    (hskip : s.skipUpdate = false)
    (hdisc : is_disconnected d unavailThresh = true) :
    (asyncUpdate threshold apiDelay unavailThresh s now (.success d)).raised = none ∧
    (asyncUpdate threshold apiDelay unavailThresh s now (.success d)).fetched = true ∧
    (asyncUpdate threshold apiDelay unavailThresh s now (.success d)).state.consecutiveFailures
        = s.consecutiveFailures ∧
    (asyncUpdate threshold apiDelay unavailThresh s now (.success d)).state.attrAvailable = false ∧
    (asyncUpdate threshold apiDelay unavailThresh s now (.success d)).state.available = false ∧
    displayAttrs (asyncUpdate threshold apiDelay unavailThresh s now (.success d)).state
        = displayAttrs s := by
  unfold asyncUpdate
  rw [if_neg hwin, hskip]
  simp only [Bool.false_eq_true, if_false]
  simp [pollAfterFetch, hdisc, displayAttrs]

/-- Witness for C10 at a concrete state and stale device. -/
theorem disconnected_poll_early_return_witness :
    (asyncUpdate 4 5 300 wState 100 (.success wDeviceStale)).raised = none ∧
    (asyncUpdate 4 5 300 wState 100 (.success wDeviceStale)).state.consecutiveFailures
        = wState.consecutiveFailures := by
  have h := disconnected_poll_early_return 4 5 300 wState 100 wDeviceStale
    (by decide) rfl (by decide)
  exact ⟨h.1, h.2.2.1⟩
